import Mathlib

/-!
Shallow embedding of `weblate/trans/machine/microsoft.py`: the Microsoft
Translator machine-translation providers (bearer-token REST variants and the
SOAP terminology service), with explicit state passing for the token cache and
an event trace for the observable steps of `translate`.  Collaborators that the
source file imports from elsewhere in the repository (the `MachineTranslation`
base class and `DEFAULT_LANGS`) are modelled from the specification and marked
as such in their doc comments.
-/

namespace Weblate

/-- Python `str.lower()`, applied character by character as the code needs. -/
def pyLower (s : String) : String := ⟨s.data.map Char.toLower⟩

/-- Python `s.replace(a, b)` for single-character `a` and `b`. -/
def pyReplaceChar (s : String) (a b : Char) : String :=
  ⟨s.data.map fun c => if c = a then b else c⟩

/-- Python `c in s` membership test for a single character `c`. -/
def pyContainsChar (s : String) (c : Char) : Bool := decide (c ∈ s.data)

/-- Python `s.split(sep)[0]` for a single-character separator: the longest
leading run of characters different from `sep`. -/
def pySplitHead (s : String) (sep : Char) : String :=
  ⟨s.data.takeWhile fun c => decide (c ≠ sep)⟩

/-- Python `s[:n]` slicing from the start. -/
def pyTake (s : String) (n : Nat) : String := ⟨s.data.take n⟩

/-- Python `s[n:]` slicing to the end. -/
def pyDrop (s : String) (n : Nat) : String := ⟨s.data.drop n⟩

/-- Equality is decidable on `Except` when it is on both components. -/
instance {ε α : Type} [DecidableEq ε] [DecidableEq α] : DecidableEq (Except ε α) := fun a b =>
  match a, b with
  | .ok x, .ok y => if h : x = y then .isTrue (by rw [h]) else .isFalse (by simp [h])
  | .error x, .error y => if h : x = y then .isTrue (by rw [h]) else .isFalse (by simp [h])
  | .ok _, .error _ => .isFalse (by simp)
  | .error _, .ok _ => .isFalse (by simp)

/-- `MachineTranslationError` (from `weblate.trans.machine.base`): the uniform
translation failure raised by this layer, carrying only a message. -/
structure MachineTranslationError where
  msg : String
deriving DecidableEq

/-- A raw Python exception as the `except Exception` clause observes it: the
class name (`exc.__class__.__name__`) and the message (`str(exc)`). -/
structure PyExc where
  className : String
  msg : String
deriving DecidableEq

/-- `TOKEN_EXPIRY = timedelta(minutes=9)`, measured here in seconds. -/
def TOKEN_EXPIRY : Nat := 9 * 60

/-- Modelled from the spec: `DEFAULT_LANGS` from `weblate.lang.data` is not under
`src/`; the spec describes the locale-table collaborator as a "flat list of
language_REGION-style tags".  A representative such list. -/
def DEFAULT_LANGS : List String :=
  ["cs_CZ", "de_DE", "en_US", "es_ES", "fr_FR", "it_IT", "pt_BR", "ru_RU", "zh_TW"]

/-- Modelled from the spec: the base class method `is_supported` from
`weblate.trans.machine.base` is not under `src/`; the spec says support is
decided by membership of both codes in the provider's SupportedLanguageSet. -/
def is_supported (supported : List String) (source language : String) : Bool :=
  decide (source ∈ supported) && decide (language ∈ supported)

namespace MicrosoftTranslation

/-- The token state of a `MicrosoftTranslation` instance: the fields
`self._access_token` and `self._token_expiry`, both `None` after `__init__`. -/
structure State where
  _access_token : Option String
  _token_expiry : Option Nat
deriving DecidableEq

/-- The OAuth authentication response dictionary: the keys `error`,
`error_description` and `access_token`, each possibly absent. -/
structure AuthResponse where
  error : Option String
  error_description : Option String
  access_token : Option String
deriving DecidableEq

/-- Outcome of the `access_token` property: the returned token string, a raised
`MachineTranslationError`, or a raised `KeyError` (the `access_token` key is
read unconditionally in the success branch). -/
inductive AuthOutcome where
  | ok (token : String)
  | mtError (msg : String)
  | keyError
deriving DecidableEq

/-- `is_token_expired`: the comparison `self._token_expiry <= timezone.now()`,
on the raw expiry instant and the current instant. -/
def is_token_expired (token_expiry now : Nat) : Bool := decide (token_expiry ≤ now)

/-- The `access_token` property with the instance state passed explicitly and
`timezone.now()` supplied as `now`; `data` is the parsed response of the
authentication request.  A raised exception leaves the state unchanged, as in
the source, so the state is returned on every branch. -/
def access_token (st : State) (now : Nat) (data : AuthResponse) : AuthOutcome × State :=
  if st._access_token.isNone || is_token_expired (st._token_expiry.getD 0) now then
    if data.error.isSome then
      (.mtError (data.error.getD "Unknown Error" ++
        data.error_description.getD "No Error Description"), st)
    else
      match data.access_token with
      | some tok => (.ok tok, ⟨some tok, some (now + TOKEN_EXPIRY)⟩)
      | none => (.keyError, st)
  else
    (.ok (st._access_token.getD ""), st)

/-- `convert_language` of `MicrosoftTranslation`:
`language.replace('_', '-').lower()` followed by the four explicit rules. -/
def convert_language (language : String) : String :=
  let language := pyLower (pyReplaceChar language '_' '-')
  if language = "zh-tw" then "zh-CHT"
  else if language = "zh-cn" then "zh-CHS"
  else if language = "nb" then "no"
  else if language = "pt-br" then "pt"
  else language

/-- The `args` dictionary built by `download_translations` for the REST
translate request. -/
structure TranslateArgs where
  text : String
  fromLang : String
  toLang : String
  contentType : String
  category : String
deriving DecidableEq

/-- The `args` dictionary of `download_translations`: the transmitted text is
`text[:5000]`, the other fields are fixed. -/
def translate_args (source language text : String) : TranslateArgs :=
  ⟨pyTake text 5000, source, language, "text/plain", "general"⟩

/-- `download_translations` of `MicrosoftTranslation`: send the request built by
`translate_args` through the transport oracle `json_req` and return the single
tuple `(response, 100, self.name, text)` with the full, untruncated text. -/
def download_translations (json_req : TranslateArgs → String)
    (source language text : String) : List (String × Int × String × String) :=
  let response := json_req (translate_args source language text)
  [(response, 100, "Microsoft Translator", text)]

end MicrosoftTranslation

namespace MicrosoftCognitiveTranslation

/-- The static `LANGUAGE_CONVERTER` override table of
`MicrosoftCognitiveTranslation`. -/
def LANGUAGE_CONVERTER : List (String × String) :=
  [("zh-hant", "zh-CHT"), ("zh-hans", "zh-CHS"), ("zh-tw", "zh-CHT"),
   ("zh-cn", "zh-CHS"), ("tlh-qaak", "tlh-Qaak"), ("nb", "no"),
   ("bs-latn", "bs-Latn"), ("sr-latn", "sr-Latn"), ("sr-cyrl", "sr-Cyrl")]

/-- `convert_language` of `MicrosoftCognitiveTranslation`: normalize, consult
the override table on the full code, else keep only the part before the first
dialect separator (`language.split('-')[0]`). -/
def convert_language (language : String) : String :=
  let language := pyLower (pyReplaceChar language '_' '-')
  match List.lookup language LANGUAGE_CONVERTER with
  | some v => v
  | none => pySplitHead language '-'

end MicrosoftCognitiveTranslation

namespace MicrosoftTerminologyService

/-- Modelled from the spec: `MicrosoftTerminologyService` defines no
`convert_language` of its own, so the base class method from
`weblate.trans.machine.base` (not under `src/`) applies; the spec describes the
codec as "lower-case, separators unified to a single dialect-separator form",
with no override table for this provider. -/
def convert_language (language : String) : String :=
  pyLower (pyReplaceChar language '_' '-')

/-- The guard of the fallback widening step in `translate`:
the condition `'-' not in code or '_' not in code` that gates the scan of
`DEFAULT_LANGS` for one side. -/
def wideningGuard (code : String) : Bool :=
  !(pyContainsChar code '-') || !(pyContainsChar code '_')

/-- One side of the fallback widening of `translate`: under `wideningGuard`,
scan `defaultLangs` for the first entry whose part before the first underscore
equals the whole code, and replace the code by
`entry.replace('_', '-').lower()`; otherwise keep the code. -/
def add_country_code (defaultLangs : List String) (code : String) : String :=
  if wideningGuard code then
    match defaultLangs.find? (fun lang => decide (pySplitHead lang '_' = code)) with
    | some lang => pyLower (pyReplaceChar lang '_' '-')
    | none => code
  else code

/-- One suggestion dictionary built by the list comprehension in `translate`:
keys `text`, `quality`, `service`, `source`. -/
structure Candidate where
  text : String
  quality : Int
  service : String
  source : String
deriving DecidableEq

/-- The observable steps of a `translate` run: language conversion, support
checks, the download request, and the call to the error-reporting
collaborator. -/
inductive Event where
  | convertLang (code : String)
  | supportCheck (source language : String)
  | download (source language text : String)
  | reportError (exc : PyExc)
deriving DecidableEq

/-- The `try` block of `translate`: call `download_translations` through the
oracle `download`, map the returned tuples to dictionaries; on any exception,
report it and re-raise `MachineTranslationError('{0}: {1}'.format(...))` built
from the class name and message of the original exception. -/
def run_download
    (download : String → String → String → Except PyExc (List (String × Int × String × String)))
    (source language text : String) :
    Except MachineTranslationError (List Candidate) × List Event :=
  match download source language text with
  | .ok translations =>
      (.ok (translations.map fun t => ⟨t.1, t.2.1, t.2.2.1, t.2.2.2⟩),
        [.download source language text])
  | .error exc =>
      (.error ⟨exc.className ++ ": " ++ exc.msg⟩,
        [.download source language text, .reportError exc])

/-- `MicrosoftTerminologyService.translate`: `supported` is the provider's
supported-language set, `defaultLangs` the locale table, `download` the
`download_translations` oracle, `language` the requested target code, and
`source_code` the project's source-language code read from the unit.  Returns
the result (value or raised failure) together with the event trace. -/
def translate (supported defaultLangs : List String)
    (download : String → String → String → Except PyExc (List (String × Int × String × String)))
    (language text source_code : String) :
    Except MachineTranslationError (List Candidate) × List Event :=
  if text = "" then (.ok [], [])
  else
    let language1 := convert_language language
    let source1 := convert_language source_code
    let ev0 : List Event := [.convertLang language, .convertLang source_code]
    if is_supported supported source1 language1 then
      let r := run_download download source1 language1 text
      (r.1, ev0 ++ .supportCheck source1 language1 :: r.2)
    else
      let language2 := add_country_code defaultLangs language1
      let source2 := add_country_code defaultLangs source1
      if source2 = language2 then
        (.ok [], ev0 ++ [.supportCheck source1 language1])
      else if is_supported supported source2 language2 then
        let r := run_download download source2 language2 text
        (r.1, ev0 ++ .supportCheck source1 language1 :: .supportCheck source2 language2 :: r.2)
      else
        (.ok [], ev0 ++ [.supportCheck source1 language1, .supportCheck source2 language2])

end MicrosoftTerminologyService

/-- A download oracle that always succeeds with one fixed suggestion; used to
make the absence of a download observable in concrete runs. -/
def stub_download : String → String → String → Except PyExc (List (String × Int × String × String)) :=
  fun _ _ text => .ok [("bonjour", 100, "Microsoft Terminology", text)]

/-- A download oracle that always fails with a fixed transport exception. -/
def failing_download : String → String → String → Except PyExc (List (String × Int × String × String)) :=
  fun _ _ _ => .error ⟨"HTTPError", "HTTP Error 500: Internal Server Error"⟩

/-- Counterexample to claim C1: the claim says the locale-variant table is
searched only when the code lacks a region/dialect separator, but the guard that
gates the table scan is a disjunction (`'-' not in code or '_' not in code`), so
for the code "en-us", which contains the separator '-', the guard still holds
and the table is searched. -/
theorem c1_counterexample :
    MicrosoftTerminologyService.wideningGuard "en-us" = true ∧
    pyContainsChar "en-us" '-' = true := by decide

/-- Claim C1 (amended): the table scan is gated only by the disjunctive guard,
so codes with a single kind of separator are still searched; however a side's
code is replaced only when the part of a table entry before the first
underscore equals the whole code, so whenever every table entry's base language
contains no separator, a code that already contains a separator is left
unchanged by the widening step. -/
theorem c1_separator_code_unchanged (defaultLangs : List String) (code : String)
    (htable : ∀ lang ∈ defaultLangs,
      pyContainsChar (pySplitHead lang '_') '-' = false ∧
      pyContainsChar (pySplitHead lang '_') '_' = false)
    (hsep : pyContainsChar code '-' = true ∨ pyContainsChar code '_' = true) :
    MicrosoftTerminologyService.add_country_code defaultLangs code = code := by
  unfold MicrosoftTerminologyService.add_country_code
  split
  · rcases hf : defaultLangs.find? (fun lang => decide (pySplitHead lang '_' = code)) with _ | lang
    · simp [hf]
    · exfalso
      have hmem : lang ∈ defaultLangs := List.mem_of_find?_eq_some hf
      have hpred := @List.find?_some String
        (fun lang => decide (pySplitHead lang '_' = code)) lang defaultLangs hf
      have heq : pySplitHead lang '_' = code := of_decide_eq_true hpred
      have h2 := htable lang hmem
      rw [heq] at h2
      rcases hsep with h | h
      · rw [h2.1] at h; exact Bool.false_ne_true h
      · rw [h2.2] at h; exact Bool.false_ne_true h
  · rfl

/-- Witness for the amended claim C1 at a concrete input: with the modelled
locale table, the widening step leaves the separator-carrying code "pt-br"
unchanged. -/
theorem c1_witness :
    MicrosoftTerminologyService.add_country_code DEFAULT_LANGS "pt-br" = "pt-br" :=
  c1_separator_code_unchanged DEFAULT_LANGS "pt-br" (by decide) (by decide)

/-- Counterexample to claim C2: with supported set {"en", "fr"} and requested
pair ("en-US", "fr"), the widening step does not replace "en-us" by a supported
variant — the code stays "en-us", the widened pair is still unsupported, and
`translate` returns the unsupported-pair empty result even though the download
oracle would have produced a suggestion. -/
theorem c2_counterexample :
    (MicrosoftTerminologyService.translate ["en", "fr"] DEFAULT_LANGS stub_download
        "fr" "hello" "en-US").1 = .ok [] ∧
    MicrosoftTerminologyService.add_country_code DEFAULT_LANGS
        (MicrosoftTerminologyService.convert_language "en-US") = "en-us" ∧
    is_supported ["en", "fr"] "en-us"
        (MicrosoftTerminologyService.add_country_code DEFAULT_LANGS "fr") = false := by decide

/-- Claim C2 (amended): widening only adds a region to a bare code, it never
strips one; with supported set {"en", "fr"} the requested pair ("en-US", "fr")
stays unsupported and `translate` returns the empty result, while in the
opposite direction, with supported set {"en-us", "fr-fr"} and requested pair
("en", "fr"), widening turns both sides into their region-qualified variants,
the pair becomes supported and translation proceeds. -/
theorem c2_widening_adds_region :
    (MicrosoftTerminologyService.translate ["en", "fr"] DEFAULT_LANGS stub_download
        "fr" "hello" "en-US").1 = .ok [] ∧
    (MicrosoftTerminologyService.translate ["en-us", "fr-fr"] DEFAULT_LANGS stub_download
        "fr" "hello" "en").1 =
      .ok [⟨"bonjour", 100, "Microsoft Terminology", "hello"⟩] := by decide

/-- Claim C3: when the language-support check has passed and the download
raises any exception, `translate` reports the exception to the error-reporting
collaborator and raises exactly one `MachineTranslationError` whose message is
the class name of the original exception followed by ": " and its message; the
caller never sees the raw exception (the result type only carries
`MachineTranslationError`). -/
theorem c3_download_failure_wrapped
    (supported defaultLangs : List String)
    (download : String → String → String → Except PyExc (List (String × Int × String × String)))
    (language text source_code : String) (exc : PyExc)
    (hne : text ≠ "")
    (hsup : is_supported supported (MicrosoftTerminologyService.convert_language source_code)
        (MicrosoftTerminologyService.convert_language language) = true)
    (hdl : download (MicrosoftTerminologyService.convert_language source_code)
        (MicrosoftTerminologyService.convert_language language) text = .error exc) :
    (MicrosoftTerminologyService.translate supported defaultLangs download
        language text source_code).1 =
      .error ⟨exc.className ++ ": " ++ exc.msg⟩ ∧
    MicrosoftTerminologyService.Event.reportError exc ∈
      (MicrosoftTerminologyService.translate supported defaultLangs download
        language text source_code).2 := by
  simp [MicrosoftTerminologyService.translate, hne, hsup,
    MicrosoftTerminologyService.run_download, hdl]

/-- Witness for claim C3 at a concrete input: a failing transport produces the
single wrapped failure "HTTPError: HTTP Error 500: Internal Server Error" and a
report event. -/
theorem c3_witness :
    (MicrosoftTerminologyService.translate ["en", "fr"] DEFAULT_LANGS failing_download
        "fr" "hello" "en").1 =
      .error ⟨"HTTPError" ++ ": " ++ "HTTP Error 500: Internal Server Error"⟩ ∧
    MicrosoftTerminologyService.Event.reportError
        ⟨"HTTPError", "HTTP Error 500: Internal Server Error"⟩ ∈
      (MicrosoftTerminologyService.translate ["en", "fr"] DEFAULT_LANGS failing_download
        "fr" "hello" "en").2 :=
  c3_download_failure_wrapped ["en", "fr"] DEFAULT_LANGS failing_download
    "fr" "hello" "en" ⟨"HTTPError", "HTTP Error 500: Internal Server Error"⟩
    (by decide) (by decide) rfl

/-- Claim C4: during a refresh of the `access_token` property, if the
authentication response contains an error field, the property raises a
`MachineTranslationError` built from the error and its description, and both
`_access_token` and `_token_expiry` are left unchanged, so the cache stays in
the Unset state and the next call attempts authentication again. -/
theorem c4_auth_error_leaves_state
    (st : MicrosoftTranslation.State) (now : Nat) (data : MicrosoftTranslation.AuthResponse)
    (hrefresh : (st._access_token.isNone ||
      MicrosoftTranslation.is_token_expired (st._token_expiry.getD 0) now) = true)
    (herr : data.error.isSome = true) :
    (MicrosoftTranslation.access_token st now data).1 =
      .mtError (data.error.getD "Unknown Error" ++
        data.error_description.getD "No Error Description") ∧
    (MicrosoftTranslation.access_token st now data).2 = st := by
  simp [MicrosoftTranslation.access_token, hrefresh, herr]

/-- Witness for claim C4 at a concrete input: a fresh instance (both fields
`None`) receiving an error response raises and installs nothing. -/
theorem c4_witness :
    (MicrosoftTranslation.access_token ⟨none, none⟩ 0
        ⟨some "invalid_client", none, none⟩).1 =
      .mtError ("invalid_client" ++ "No Error Description") ∧
    (MicrosoftTranslation.access_token ⟨none, none⟩ 0
        ⟨some "invalid_client", none, none⟩).2 = ⟨none, none⟩ :=
  c4_auth_error_leaves_state ⟨none, none⟩ 0 ⟨some "invalid_client", none, none⟩ rfl rfl

/-- Claim C5: a credential installed at instant T receives expiry
T + TOKEN_EXPIRY (the fixed nine-minute lease), and `is_token_expired` on that
expiry reports expired exactly for the instants greater than or equal to
T + TOKEN_EXPIRY, hence not expired for every instant strictly before it. -/
theorem c5_lease_and_expiry
    (st : MicrosoftTranslation.State) (data : MicrosoftTranslation.AuthResponse)
    (tok : String) (T t : Nat)
    (hrefresh : (st._access_token.isNone ||
      MicrosoftTranslation.is_token_expired (st._token_expiry.getD 0) T) = true)
    (herr : data.error = none) (htok : data.access_token = some tok) :
    (MicrosoftTranslation.access_token st T data).2._token_expiry =
      some (T + TOKEN_EXPIRY) ∧
    (MicrosoftTranslation.is_token_expired (T + TOKEN_EXPIRY) t = true ↔
      T + TOKEN_EXPIRY ≤ t) := by
  constructor
  · simp [MicrosoftTranslation.access_token, hrefresh, herr, htok]
  · simp [MicrosoftTranslation.is_token_expired]

/-- Witness for claim C5 at a concrete input: an install at instant 100 sets
expiry 100 + TOKEN_EXPIRY, and the expiry check at instant 640 is decided by
the comparison 100 + TOKEN_EXPIRY ≤ 640. -/
theorem c5_witness :
    (MicrosoftTranslation.access_token ⟨none, none⟩ 100
        ⟨none, none, some "TOKEN"⟩).2._token_expiry = some (100 + TOKEN_EXPIRY) ∧
    (MicrosoftTranslation.is_token_expired (100 + TOKEN_EXPIRY) 640 = true ↔
      100 + TOKEN_EXPIRY ≤ 640) :=
  c5_lease_and_expiry ⟨none, none⟩ ⟨none, none, some "TOKEN"⟩ "TOKEN" 100 640 rfl rfl rfl

/-- Claim C6: for every text longer than the fixed cap of 5000 characters, the
text placed in the request arguments by `download_translations` has length
exactly 5000 and is an initial segment of the input (appending the dropped
remainder restores the input); the truncation is a total operation that raises
nothing. -/
theorem c6_truncation (source language text : String) (h : 5000 < text.length) :
    (MicrosoftTranslation.translate_args source language text).text.length = 5000 ∧
    (MicrosoftTranslation.translate_args source language text).text ++
      pyDrop text 5000 = text := by
  obtain ⟨l⟩ := text
  constructor
  · show (l.take 5000).length = 5000
    rw [List.length_take]
    have hl : 5000 < l.length := h
    omega
  · show String.mk (l.take 5000 ++ l.drop 5000) = String.mk l
    rw [List.take_append_drop]

/-- Witness for claim C6 at a concrete input: a 5001-character text is
transmitted as its first 5000 characters. -/
theorem c6_witness :
    5000 < (String.mk (List.replicate 5001 'a')).length ∧
    ((MicrosoftTranslation.translate_args "en" "de"
        (String.mk (List.replicate 5001 'a'))).text.length = 5000 ∧
      (MicrosoftTranslation.translate_args "en" "de"
        (String.mk (List.replicate 5001 'a'))).text ++
        pyDrop (String.mk (List.replicate 5001 'a')) 5000 =
        String.mk (List.replicate 5001 'a')) :=
  ⟨by show 5000 < (List.replicate 5001 'a').length; rw [List.length_replicate]; omega,
    c6_truncation "en" "de" (String.mk (List.replicate 5001 'a'))
      (by show 5000 < (List.replicate 5001 'a').length; rw [List.length_replicate]; omega)⟩

/-- Claim C7: for every supported set, locale table, download oracle and
language pair, `translate` on the empty text returns the empty list with an
empty event trace: no language conversion, no support check and no download
ever happen. -/
theorem c7_empty_text (supported defaultLangs : List String)
    (download : String → String → String → Except PyExc (List (String × Int × String × String)))
    (language source_code : String) :
    MicrosoftTerminologyService.translate supported defaultLangs download
      language "" source_code = (.ok [], []) := rfl

/-- Claim C8: `convert_language` is a pure function of its argument, and the two
REST providers map "zh_TW" to "zh-CHT" by their tables and "pt_BR" to "pt" —
`MicrosoftTranslation` by its explicit rule, `MicrosoftCognitiveTranslation` by
the generic strip-region fallback, since "pt-br" is absent from its
`LANGUAGE_CONVERTER` table. -/
theorem c8_convert_language_tables :
    MicrosoftTranslation.convert_language "zh_TW" = "zh-CHT" ∧
    MicrosoftTranslation.convert_language "pt_BR" = "pt" ∧
    MicrosoftCognitiveTranslation.convert_language "zh_TW" = "zh-CHT" ∧
    List.lookup "pt-br" MicrosoftCognitiveTranslation.LANGUAGE_CONVERTER = none ∧
    MicrosoftCognitiveTranslation.convert_language "pt_BR" = "pt" := by decide

/-- Claim C10: for every input text — also one longer than the 5000-character
cap — `download_translations` of `MicrosoftTranslation` returns exactly one
tuple; its quality component is the fixed value 100 and its source component is
the full, untruncated input text, while only the truncated text was placed in
the request arguments. -/
theorem c10_single_candidate_full_source
    (json_req : MicrosoftTranslation.TranslateArgs → String)
    (source language text : String) :
    MicrosoftTranslation.download_translations json_req source language text =
      [(json_req (MicrosoftTranslation.translate_args source language text),
        100, "Microsoft Translator", text)] := rfl

end Weblate
